import Mathlib

/-!
Shallow embedding of the Polymarket paper-trading worker
(src/live_worker.py and src/config/bot_configs.py, src/config/persistence_odds.py).

Prices, probabilities and times are modelled as rationals; Python's `int(...)`
truncation toward zero is `truncToInt`; Python dicts/sets become structures and
lists.  Diagnostic-only state (`last_skip_reason`, timestamps, log files) is
omitted: the spec explicitly excludes it from correctness invariants.
-/

namespace Polymarket

/-- Python `int(x)` for a rational: truncation toward zero. -/
def truncToInt (x : ℚ) : ℤ := if 0 ≤ x then ⌊x⌋ else ⌈x⌉

/-- The two outcome sides, `'YES'` / `'NO'` in the source. -/
inductive Direction
  | YES
  | NO
deriving DecidableEq

/-- One market tick as consumed by the worker (fields of the tick dict that the
engine reads): window id, current BTC price, window strike, minutes remaining,
and the two sides' ask prices in cents. -/
structure Tick where
  window_id : String
  btc_price : ℚ
  strike_price : ℚ
  mins_left : ℚ
  yes_ask : ℚ
  no_ask : ℚ
deriving DecidableEq

/-- The dict returned by the three `check_*_entry` functions on acceptance:
`{'direction': ..., 'price': ..., 'edge': ...}` (`edge` is `None` for the
sentiment policy). -/
structure TradeInfo where
  direction : Direction
  price : ℚ
  edge : Option ℚ
deriving DecidableEq

/-- A bot's config dict (src/config/bot_configs.py).  Defaults mirror the
`config.get(key, default)` fallbacks used in src/live_worker.py. -/
structure BotConfig where
  starting_bankroll : ℚ := 1000
  target_minute : ℚ := 0
  true_probability : ℚ := 0
  max_price_cents : ℚ := 100
  min_edge : ℚ := 0
  min_wait_minutes : ℚ := 0
  odds_threshold : ℚ := 0
  bet_size : ℚ := 10
  scale_with_edge : Bool := false
  base_bet_size : ℚ := 10
  max_bet_size : ℚ := 50
deriving DecidableEq

/-- The pending-trade dict built in `execute_trade` (timestamp and market_id,
pure metadata never read by the engine, are omitted). -/
structure Position where
  window_id : String
  strike : ℚ
  btc_price : ℚ
  mins_left : ℚ
  direction : Direction
  entry_price : ℚ
  contracts : ℤ
  bet_size : ℚ
  fee : ℚ
  edge : Option ℚ
deriving DecidableEq

/-- A settled trade: the pending dict after `settle_trade` added
`outcome`, `profit` and `bankroll_after`. -/
structure SettledTrade where
  position : Position
  won : Bool
  profit : ℚ
  bankroll_after : ℚ
deriving DecidableEq

/-- Class LiveBotState (src/live_worker.py), without the
diagnostic `last_skip_reason` / `skipped_windows` fields. -/
structure LiveBotState where
  bankroll : ℚ
  initial_bankroll : ℚ
  trades : List SettledTrade
  wins : ℕ
  losses : ℕ
  total_wagered : ℚ
  total_fees : ℚ
  current_streak : ℤ
  max_win_streak : ℤ
  max_loss_streak : ℤ
  pending_trade : Option Position
  traded_windows : List String
deriving DecidableEq

/-- Constructor `LiveBotState.__init__` (src/live_worker.py). -/
def initState (cfg : BotConfig) : LiveBotState :=
  { bankroll := cfg.starting_bankroll
    initial_bankroll := cfg.starting_bankroll
    trades := []
    wins := 0
    losses := 0
    total_wagered := 0
    total_fees := 0
    current_streak := 0
    max_win_streak := 0
    max_loss_streak := 0
    pending_trade := none
    traded_windows := [] }

/-- Constant `POLYMARKET_FEE_RATE = 0.02` (src/config/bot_configs.py). -/
def POLYMARKET_FEE_RATE : ℚ := 2 / 100

/-- Function `polymarket_fee(price_cents)` (src/config/bot_configs.py). -/
def polymarket_fee (price_cents : ℚ) : ℚ :=
  if price_cents ≤ 0 ∨ 100 ≤ price_cents then 0
  else POLYMARKET_FEE_RATE * (price_cents / 100) * (1 - price_cents / 100) * 100

/-- Function `get_persistence_rate(minute)` over `PERSISTENCE_BY_MINUTE`
(src/config/persistence_odds.py): the persistence-rate column, `None`
outside keys 0–14. -/
def get_persistence_rate (minute : ℤ) : Option ℚ :=
  if minute = 0 then some (560/1000)
  else if minute = 1 then some (626/1000)
  else if minute = 2 then some (684/1000)
  else if minute = 3 then some (732/1000)
  else if minute = 4 then some (771/1000)
  else if minute = 5 then some (804/1000)
  else if minute = 6 then some (832/1000)
  else if minute = 7 then some (856/1000)
  else if minute = 8 then some (877/1000)
  else if minute = 9 then some (895/1000)
  else if minute = 10 then some (912/1000)
  else if minute = 11 then some (927/1000)
  else if minute = 12 then some (941/1000)
  else if minute = 13 then some (954/1000)
  else if minute = 14 then some (968/1000)
  else none

/-- Function `check_fixed_minute_entry(bot, tick)` (src/live_worker.py). -/
def check_fixed_minute_entry (cfg : BotConfig) (bot : LiveBotState) (tick : Tick) :
    Option TradeInfo :=
  if bot.pending_trade.isSome then none
  else if tick.window_id ∈ bot.traded_windows then none
  else
    let target_mins_left := 14 - cfg.target_minute
    if ¬ (target_mins_left - 1/2 ≤ tick.mins_left ∧
          tick.mins_left ≤ target_mins_left + 1/2) then none
    else
      let pd : Direction × ℚ :=
        if tick.strike_price < tick.btc_price then (Direction.YES, tick.yes_ask)
        else (Direction.NO, tick.no_ask)
      if pd.2 = 0 then none
      else if 100 ≤ pd.2 then none
      else
        let edge := cfg.true_probability - pd.2 / 100
        if edge < cfg.min_edge then none
        else if cfg.max_price_cents < pd.2 then none
        else some ⟨pd.1, pd.2, some edge⟩

/-- Function `check_dynamic_edge_entry(bot, tick)` (src/live_worker.py). -/
def check_dynamic_edge_entry (cfg : BotConfig) (bot : LiveBotState) (tick : Tick) :
    Option TradeInfo :=
  if bot.pending_trade.isSome then none
  else if tick.window_id ∈ bot.traded_windows then none
  else if 14 - cfg.min_wait_minutes < tick.mins_left then none
  else if tick.mins_left < 1 then none
  else
    let current_minute := truncToInt (14 - tick.mins_left)
    if current_minute < 1 ∨ 13 < current_minute then none
    else
      (get_persistence_rate current_minute).bind fun true_prob =>
        let pd : Direction × ℚ :=
          if tick.strike_price < tick.btc_price then (Direction.YES, tick.yes_ask)
          else (Direction.NO, tick.no_ask)
        if pd.2 = 0 then none
        else if 100 ≤ pd.2 then none
        else
          let edge := true_prob - pd.2 / 100
          if edge < cfg.min_edge then none
          else some ⟨pd.1, pd.2, some edge⟩

/-- Function `check_sentiment_entry(bot, tick)` (src/live_worker.py). -/
def check_sentiment_entry (cfg : BotConfig) (bot : LiveBotState) (tick : Tick) :
    Option TradeInfo :=
  if bot.pending_trade.isSome then none
  else if tick.window_id ∈ bot.traded_windows then none
  else if 14 - cfg.min_wait_minutes < tick.mins_left then none
  else if tick.mins_left < 1/2 then none
  else if tick.yes_ask = 0 ∨ tick.no_ask = 0 then none
  else
    let pd : Option (Direction × ℚ) :=
      if cfg.odds_threshold ≤ tick.yes_ask then some (Direction.YES, tick.yes_ask)
      else if cfg.odds_threshold ≤ tick.no_ask then some (Direction.NO, tick.no_ask)
      else none
    pd.bind fun dp =>
      if 100 ≤ dp.2 then none
      else some ⟨dp.1, dp.2, none⟩

/-- The bet-size computation at the top of `execute_trade`: the fixed
`bet_size` unless `scale_with_edge` is set and the decision's edge is truthy
(present and nonzero), in which case a clamped linear ramp between
`base_bet_size` and `max_bet_size`. -/
def exec_bet_size (cfg : BotConfig) (info : TradeInfo) : ℚ :=
  match info.edge with
  | some edge =>
    if cfg.scale_with_edge ∧ edge ≠ 0 then
      cfg.base_bet_size +
        min 1 (max 0 ((edge - 10/100) / (20/100))) * (cfg.max_bet_size - cfg.base_bet_size)
    else cfg.bet_size
  | none => cfg.bet_size

/-- Function `execute_trade(bot, tick, trade_info)` (src/live_worker.py). -/
def execute_trade (cfg : BotConfig) (bot : LiveBotState) (tick : Tick)
    (info : TradeInfo) : LiveBotState :=
  let bet_size := exec_bet_size cfg info
  let fee := polymarket_fee info.price
  let contracts := truncToInt (bet_size / (info.price / 100))
  let pos : Position :=
    { window_id := tick.window_id
      strike := tick.strike_price
      btc_price := tick.btc_price
      mins_left := tick.mins_left
      direction := info.direction
      entry_price := info.price
      contracts := contracts
      bet_size := bet_size
      fee := fee * contracts / 100
      edge := info.edge }
  { bot with
      pending_trade := some pos
      total_wagered := bot.total_wagered + bet_size
      traded_windows := bot.traded_windows.insert tick.window_id }

/-- Function `settle_trade(bot, result)` (src/live_worker.py), returning the new state. -/
def settle_trade (bot : LiveBotState) (result : Direction) : LiveBotState :=
  match bot.pending_trade with
  | none => bot
  | some trade =>
    if trade.direction = result then
      let profit := (trade.contracts : ℚ) - trade.bet_size - trade.fee
      let streak := max 0 bot.current_streak + 1
      let bankroll := bot.bankroll + profit
      { bot with
          wins := bot.wins + 1
          current_streak := streak
          max_win_streak := max bot.max_win_streak streak
          bankroll := bankroll
          total_fees := bot.total_fees + trade.fee
          trades := bot.trades ++ [⟨trade, true, profit, bankroll⟩]
          pending_trade := none }
    else
      let profit := -trade.bet_size - trade.fee
      let streak := min 0 bot.current_streak - 1
      let bankroll := bot.bankroll + profit
      { bot with
          losses := bot.losses + 1
          current_streak := streak
          max_loss_streak := max bot.max_loss_streak |streak|
          bankroll := bankroll
          total_fees := bot.total_fees + trade.fee
          trades := bot.trades ++ [⟨trade, false, profit, bankroll⟩]
          pending_trade := none }

/-- The three policy families, dispatched in `LiveWorker.process_tick` by the
bot-id prefix (`s1_` / `s2_` / `s3_`). -/
inductive Policy
  | fixedMinute
  | dynamicEdge
  | sentiment

/-- The entry check `process_tick` runs for a bot of the given series. -/
def checkEntry : Policy → BotConfig → LiveBotState → Tick → Option TradeInfo
  | .fixedMinute => check_fixed_minute_entry
  | .dynamicEdge => check_dynamic_edge_entry
  | .sentiment => check_sentiment_entry

/-- One bot's share of `LiveWorker.process_tick`: run the series' entry check
and execute the trade iff it returned a decision. -/
def tickEval (p : Policy) (cfg : BotConfig) (bot : LiveBotState) (tick : Tick) :
    LiveBotState :=
  match checkEntry p cfg bot tick with
  | some info => execute_trade cfg bot tick info
  | none => bot

/-- Bot states reachable from `__init__` under any sequence of entry
evaluations (with execution on acceptance) and settlements. -/
inductive Reach (p : Policy) (cfg : BotConfig) : LiveBotState → Prop
  | init : Reach p cfg (initState cfg)
  | eval (tick : Tick) {s : LiveBotState} :
      Reach p cfg s → Reach p cfg (tickEval p cfg s tick)
  | settle (result : Direction) {s : LiveBotState} :
      Reach p cfg s → Reach p cfg (settle_trade s result)

/-- The worker state touched by `LiveWorker.settle_window`: the bot map
(modelled as the list of bot states) and the settled-window set. -/
structure WorkerState where
  bots : List LiveBotState
  settled_windows : List String
deriving DecidableEq

/-- Method `LiveWorker.settle_window(window_id, result)` (src/live_worker.py). -/
def settle_window (w : WorkerState) (window_id : String) (result : Direction) :
    WorkerState :=
  if window_id ∈ w.settled_windows then w
  else
    { bots := w.bots.map fun b =>
        match b.pending_trade with
        | some t => if t.window_id = window_id then settle_trade b result else b
        | none => b
      settled_windows := w.settled_windows.insert window_id }

/-- Method `LiveWorker.determine_result(tick)` (src/live_worker.py). -/
def determine_result (tick : Tick) : Option Direction :=
  if 1/2 < tick.mins_left then none
  else if tick.strike_price < tick.btc_price then some Direction.YES
  else some Direction.NO

/-- The strike-tracking state of `LiveWorker.run`: `current_window` and the
`window_strikes` dict (association list, newest binding first, so consing
models dict assignment). -/
structure TrackerState where
  current_window : Option String
  window_strikes : List (String × ℚ)
deriving DecidableEq

/-- Dict lookup in `window_strikes`. -/
def lookupStrike : List (String × ℚ) → String → Option ℚ
  | [], _ => none
  | (k, v) :: rest, wid => if k = wid then some v else lookupStrike rest wid

/-- The tracker state at worker startup. -/
def initTracker : TrackerState := { current_window := none, window_strikes := [] }

/-- New-window detection in `LiveWorker.run`: when the tick's window id is not
the current window, record the tick's BTC price as that window's strike
(a dict assignment, overwriting any previous entry) and make it current. -/
def recordWindow (s : TrackerState) (tick : Tick) : TrackerState :=
  if s.current_window ≠ some tick.window_id then
    { current_window := some tick.window_id
      window_strikes := (tick.window_id, tick.btc_price) :: s.window_strikes }
  else s

/-- The strike-tracking portion of one `LiveWorker.run` loop iteration:
new-window detection, then stamping the tick with the stored strike (falling
back to the current BTC price if no strike is stored, which also records it).
Returns the new tracker state and the stamped tick. -/
def trackTick (s : TrackerState) (tick : Tick) : TrackerState × Tick :=
  let s1 := recordWindow s tick
  match lookupStrike s1.window_strikes tick.window_id with
  | some k => (s1, { tick with strike_price := k })
  | none =>
    ({ s1 with window_strikes := (tick.window_id, tick.btc_price) :: s1.window_strikes },
     { tick with strike_price := tick.btc_price })

/-- Fold `trackTick` over a tick sequence, collecting the stamped ticks. -/
def runTicks (s : TrackerState) : List Tick → TrackerState × List Tick
  | [] => (s, [])
  | t :: ts =>
    let st := trackTick s t
    let rest := runTicks st.1 ts
    (rest.1, st.2 :: rest.2)

/-! ### Helper lemmas -/

lemma settle_window_of_mem {w : WorkerState} {wid : String} (r : Direction)
    (h : wid ∈ w.settled_windows) : settle_window w wid r = w := by
  unfold settle_window
  rw [if_pos h]

lemma mem_settle_window (w : WorkerState) (wid : String) (r : Direction) :
    wid ∈ (settle_window w wid r).settled_windows := by
  unfold settle_window
  by_cases h : wid ∈ w.settled_windows
  · rw [if_pos h]
    exact h
  · rw [if_neg h]
    exact List.mem_insert_self wid w.settled_windows

lemma checkEntry_skip (p : Policy) (cfg : BotConfig) (bot : LiveBotState) (tick : Tick)
    (h : bot.pending_trade.isSome ∨ tick.window_id ∈ bot.traded_windows) :
    checkEntry p cfg bot tick = none := by
  rcases h with h | h <;>
    cases p <;>
      simp [checkEntry, check_fixed_minute_entry, check_dynamic_edge_entry,
        check_sentiment_entry, h]

lemma tickEval_of_skip (p : Policy) (cfg : BotConfig) (bot : LiveBotState) (tick : Tick)
    (h : bot.pending_trade.isSome ∨ tick.window_id ∈ bot.traded_windows) :
    tickEval p cfg bot tick = bot := by
  unfold tickEval
  rw [checkEntry_skip p cfg bot tick h]

lemma tickEval_ledger (p : Policy) (cfg : BotConfig) (bot : LiveBotState) (tick : Tick) :
    (tickEval p cfg bot tick).bankroll = bot.bankroll ∧
    (tickEval p cfg bot tick).initial_bankroll = bot.initial_bankroll ∧
    (tickEval p cfg bot tick).trades = bot.trades := by
  unfold tickEval
  cases checkEntry p cfg bot tick with
  | none => exact ⟨rfl, rfl, rfl⟩
  | some info => exact ⟨rfl, rfl, rfl⟩

lemma settle_trade_bankroll {s : LiveBotState} (r : Direction)
    (ih : s.bankroll = s.initial_bankroll + (s.trades.map SettledTrade.profit).sum) :
    (settle_trade s r).bankroll =
      (settle_trade s r).initial_bankroll +
        ((settle_trade s r).trades.map SettledTrade.profit).sum := by
  cases hp : s.pending_trade with
  | none => simpa only [settle_trade, hp] using ih
  | some trade =>
    by_cases hw : trade.direction = r
    · simp only [settle_trade, hp, hw, if_true, List.map_append, List.sum_append,
        List.map_cons, List.map_nil, List.sum_cons, List.sum_nil]
      rw [ih]
      ring
    · simp only [settle_trade, hp, hw, if_false, List.map_append, List.sum_append,
        List.map_cons, List.map_nil, List.sum_cons, List.sum_nil]
      rw [ih]
      ring

lemma check_fixed_inv {cfg : BotConfig} {bot : LiveBotState} {tick : Tick}
    {info : TradeInfo} (h : check_fixed_minute_entry cfg bot tick = some info) :
    (14 - cfg.target_minute - 1/2 ≤ tick.mins_left ∧
     tick.mins_left ≤ 14 - cfg.target_minute + 1/2) ∧
    info.price ≠ 0 ∧ info.price < 100 ∧
    info.edge = some (cfg.true_probability - info.price / 100) ∧
    cfg.min_edge ≤ cfg.true_probability - info.price / 100 ∧
    info.price ≤ cfg.max_price_cents ∧
    (info.price = tick.yes_ask ∨ info.price = tick.no_ask) := by
  simp only [check_fixed_minute_entry] at h
  split_ifs at h with h1 h2 h3 h4 h5 h6 h7 h8 <;>
    try exact Option.noConfusion h
  · obtain rfl := Option.some.inj h
    exact ⟨h3, h5, not_le.mp h6, rfl, not_lt.mp h7, not_lt.mp h8, Or.inl rfl⟩
  · rename_i h5 h6 h7 h8
    obtain rfl := Option.some.inj h
    exact ⟨h3, h5, not_le.mp h6, rfl, not_lt.mp h7, not_lt.mp h8, Or.inr rfl⟩

lemma check_dynamic_inv {cfg : BotConfig} {bot : LiveBotState} {tick : Tick}
    {info : TradeInfo} (h : check_dynamic_edge_entry cfg bot tick = some info) :
    info.price ≠ 0 ∧ info.price < 100 ∧
    (info.price = tick.yes_ask ∨ info.price = tick.no_ask) ∧
    ∃ e, info.edge = some e ∧ cfg.min_edge ≤ e := by
  simp only [check_dynamic_edge_entry] at h
  by_cases h1 : bot.pending_trade.isSome = true
  · rw [if_pos h1] at h
    exact Option.noConfusion h
  rw [if_neg h1] at h
  by_cases h2 : tick.window_id ∈ bot.traded_windows
  · rw [if_pos h2] at h
    exact Option.noConfusion h
  rw [if_neg h2] at h
  by_cases h3 : 14 - cfg.min_wait_minutes < tick.mins_left
  · rw [if_pos h3] at h
    exact Option.noConfusion h
  rw [if_neg h3] at h
  by_cases h4 : tick.mins_left < 1
  · rw [if_pos h4] at h
    exact Option.noConfusion h
  rw [if_neg h4] at h
  by_cases h5 : truncToInt (14 - tick.mins_left) < 1 ∨ 13 < truncToInt (14 - tick.mins_left)
  · rw [if_pos h5] at h
    exact Option.noConfusion h
  rw [if_neg h5] at h
  cases hm : get_persistence_rate (truncToInt (14 - tick.mins_left)) with
  | none =>
    rw [hm] at h
    exact Option.noConfusion h
  | some tp =>
    rw [hm] at h
    simp only [Option.some_bind] at h
    by_cases hab : tick.strike_price < tick.btc_price
    · simp only [if_pos hab] at h
      by_cases hz : tick.yes_ask = 0
      · rw [if_pos hz] at h
        exact Option.noConfusion h
      rw [if_neg hz] at h
      by_cases hc : (100 : ℚ) ≤ tick.yes_ask
      · rw [if_pos hc] at h
        exact Option.noConfusion h
      rw [if_neg hc] at h
      by_cases he : tp - tick.yes_ask / 100 < cfg.min_edge
      · rw [if_pos he] at h
        exact Option.noConfusion h
      rw [if_neg he] at h
      obtain rfl := Option.some.inj h
      exact ⟨hz, not_le.mp hc, Or.inl rfl, tp - tick.yes_ask / 100, rfl, not_lt.mp he⟩
    · simp only [if_neg hab] at h
      by_cases hz : tick.no_ask = 0
      · rw [if_pos hz] at h
        exact Option.noConfusion h
      rw [if_neg hz] at h
      by_cases hc : (100 : ℚ) ≤ tick.no_ask
      · rw [if_pos hc] at h
        exact Option.noConfusion h
      rw [if_neg hc] at h
      by_cases he : tp - tick.no_ask / 100 < cfg.min_edge
      · rw [if_pos he] at h
        exact Option.noConfusion h
      rw [if_neg he] at h
      obtain rfl := Option.some.inj h
      exact ⟨hz, not_le.mp hc, Or.inr rfl, tp - tick.no_ask / 100, rfl, not_lt.mp he⟩

lemma check_sentiment_inv {cfg : BotConfig} {bot : LiveBotState} {tick : Tick}
    {info : TradeInfo} (h : check_sentiment_entry cfg bot tick = some info) :
    info.edge = none ∧ info.price ≠ 0 ∧ info.price < 100 ∧
    (info.price = tick.yes_ask ∨ info.price = tick.no_ask) := by
  simp only [check_sentiment_entry] at h
  split_ifs at h with h1 h2 h3 h4 h5 h6 h7 h8 <;>
    first
      | exact Option.noConfusion h
      | simp only [Option.some_bind, Option.none_bind] at h
  · split_ifs at h with h9 <;> try exact Option.noConfusion h
    obtain rfl := Option.some.inj h
    exact ⟨rfl, fun hz => (not_or.mp h5).1 hz, not_le.mp h9, Or.inl rfl⟩
  · split_ifs at h with h9 <;> try exact Option.noConfusion h
    obtain rfl := Option.some.inj h
    exact ⟨rfl, fun hz => (not_or.mp h5).2 hz, not_le.mp h9, Or.inr rfl⟩

lemma truncToInt_nonneg {x : ℚ} (h : 0 ≤ x) : 0 ≤ truncToInt x := by
  unfold truncToInt
  rw [if_pos h]
  exact Int.floor_nonneg.mpr h

lemma exec_bet_size_nonneg (cfg : BotConfig) (info : TradeInfo)
    (h1 : 0 ≤ cfg.bet_size) (h2 : 0 ≤ cfg.base_bet_size) (h3 : 0 ≤ cfg.max_bet_size) :
    0 ≤ exec_bet_size cfg info := by
  cases he : info.edge with
  | none => simpa only [exec_bet_size, he] using h1
  | some e =>
    simp only [exec_bet_size, he]
    by_cases hs : cfg.scale_with_edge = true ∧ e ≠ 0
    · rw [if_pos hs]
      have s0 : 0 ≤ min 1 (max 0 ((e - 10/100) / (20/100))) :=
        le_min zero_le_one (le_max_left 0 _)
      have s1 : min 1 (max 0 ((e - 10/100) / (20/100))) ≤ 1 := min_le_left _ _
      nlinarith [s0, s1]
    · rw [if_neg hs]
      exact h1

lemma exec_bet_size_scaled (cfg : BotConfig) (info : TradeInfo) (e : ℚ)
    (hs : cfg.scale_with_edge = true) (he : info.edge = some e) (hz : e ≠ 0) :
    exec_bet_size cfg info =
      cfg.base_bet_size +
        min 1 (max 0 ((e - 10/100) / (20/100))) * (cfg.max_bet_size - cfg.base_bet_size) := by
  simp only [exec_bet_size, he]
  rw [if_pos ⟨hs, hz⟩]

lemma exec_bet_size_fixed (cfg : BotConfig) (info : TradeInfo)
    (hs : cfg.scale_with_edge = false) : exec_bet_size cfg info = cfg.bet_size := by
  cases he : info.edge with
  | none => simp only [exec_bet_size, he]
  | some e =>
    simp only [exec_bet_size, he]
    rw [if_neg (by simp [hs])]

/-- The Series-1 bot `s1_fixed_min_5` from `FIXED_MINUTE_BOTS`
(src/config/bot_configs.py): target minute 5, persistence 0.804, price cap
`int(0.804 * 100 * 0.95)`, min edge 0.03. -/
def fixedMin5Cfg : BotConfig :=
  { target_minute := 5
    true_probability := 804/1000
    max_price_cents := (truncToInt (804/1000 * 100 * (95/100)) : ℚ)
    min_edge := 3/100
    starting_bankroll := 1000
    bet_size := 10 }

/-- A tick at minutes-remaining 9.0 with the current price above the strike
and an "up" ask of 60 cents (spec §8 scenario). -/
def scenarioTick : Tick :=
  { window_id := "w"
    btc_price := 50100
    strike_price := 50000
    mins_left := 9
    yes_ask := 60
    no_ask := 40 }

lemma trunc_cap : truncToInt (3819/50 : ℚ) = 76 := by
  unfold truncToInt
  rw [if_pos (by norm_num), Int.floor_eq_iff]
  constructor <;> norm_num

lemma scenario_fixed_eval :
    check_fixed_minute_entry fixedMin5Cfg (initState fixedMin5Cfg) scenarioTick =
      some ⟨Direction.YES, 60, some (51/250)⟩ := by
  norm_num [check_fixed_minute_entry, fixedMin5Cfg, initState, scenarioTick]
  intro hc
  rw [trunc_cap] at hc
  norm_num at hc

/-- The Series-3 bot `s3_sentiment_odds70_wait0` from `SENTIMENT_BOTS`
(src/config/bot_configs.py): odds threshold 70 cents, no wait. -/
def sentiment70Cfg : BotConfig :=
  { odds_threshold := 70
    min_wait_minutes := 0
    starting_bankroll := 1000
    bet_size := 10 }

/-- A tick with up-ask 72 and down-ask 30 (spec §8 sentiment scenario). -/
def sentimentTick : Tick :=
  { window_id := "w2"
    btc_price := 50100
    strike_price := 50000
    mins_left := 5
    yes_ask := 72
    no_ask := 30 }

lemma scenario_sentiment_eval :
    check_sentiment_entry sentiment70Cfg (initState sentiment70Cfg) sentimentTick =
      some ⟨Direction.YES, 72, none⟩ := by
  norm_num [check_sentiment_entry, sentiment70Cfg, initState, sentimentTick]

/-! ### Claim theorems -/

/-- Claim C4: for every closing tick (minutes remaining not above the 0.5
threshold) the settlement outcome is YES exactly when the current BTC price is
strictly above the strike, and NO otherwise; in particular exact equality of
price and strike settles NO. -/
theorem C4_determine_result (tick : Tick) (h : tick.mins_left ≤ 1/2) :
    (tick.strike_price < tick.btc_price → determine_result tick = some Direction.YES) ∧
    (tick.btc_price ≤ tick.strike_price → determine_result tick = some Direction.NO) := by
  unfold determine_result
  rw [if_neg (not_lt.mpr h)]
  refine ⟨fun hlt => ?_, fun hle => ?_⟩
  · rw [if_pos hlt]
  · rw [if_neg (not_lt.mpr hle)]

/-- Witness for C4: a closing tick with current price exactly equal to the
strike settles NO. -/
theorem C4_determine_result_witness :
    determine_result ⟨"w", 100, 100, 1/5, 55, 45⟩ = some Direction.NO :=
  (C4_determine_result ⟨"w", 100, 100, 1/5, 55, 45⟩ (by norm_num)).2 (by norm_num)

/-- Claim C6: the fee curve is zero at 0 and 100, symmetric about 50 on 0–100,
maximal at 50, and follows `feeRate * (p/100) * (1 - p/100) * 100` strictly
inside (0, 100). -/
theorem C6_fee_curve :
    polymarket_fee 0 = 0 ∧ polymarket_fee 100 = 0 ∧
    (∀ p : ℚ, 0 ≤ p → p ≤ 100 → polymarket_fee p = polymarket_fee (100 - p)) ∧
    (∀ p : ℚ, 0 ≤ p → p ≤ 100 → polymarket_fee p ≤ polymarket_fee 50) ∧
    (∀ p : ℚ, 0 < p → p < 100 →
      polymarket_fee p = POLYMARKET_FEE_RATE * (p / 100) * (1 - p / 100) * 100) := by
  have h50 : polymarket_fee 50 = 1/2 := by
    norm_num [polymarket_fee, POLYMARKET_FEE_RATE]
  refine ⟨by norm_num [polymarket_fee], by norm_num [polymarket_fee], ?_, ?_, ?_⟩
  · intro p h0 h1
    unfold polymarket_fee
    by_cases hb : p ≤ 0 ∨ 100 ≤ p
    · have hb2 : 100 - p ≤ 0 ∨ 100 ≤ 100 - p := by
        rcases hb with h | h
        · exact Or.inr (by linarith)
        · exact Or.inl (by linarith)
      rw [if_pos hb, if_pos hb2]
    · push_neg at hb
      rw [if_neg (by push_neg; exact hb),
          if_neg (by push_neg; constructor <;> linarith [hb.1, hb.2])]
      simp only [POLYMARKET_FEE_RATE]
      ring
  · intro p h0 h1
    rw [h50]
    unfold polymarket_fee
    by_cases hb : p ≤ 0 ∨ 100 ≤ p
    · rw [if_pos hb]
      norm_num
    · push_neg at hb
      rw [if_neg (by push_neg; exact hb)]
      simp only [POLYMARKET_FEE_RATE]
      nlinarith [sq_nonneg (p - 50)]
  · intro p h0 h1
    unfold polymarket_fee
    rw [if_neg (by push_neg; exact ⟨h0, h1⟩)]

/-- Witness for C6: symmetry evaluated at price 30. -/
theorem C6_fee_curve_witness : polymarket_fee 30 = polymarket_fee (100 - 30) :=
  C6_fee_curve.2.2.1 30 (by norm_num) (by norm_num)

/-- Claim C3: settling a window already in the settled set changes nothing,
settlement marks the window settled, and replaying the closing settlement is
idempotent. -/
theorem C3_settle_window_idempotent (w : WorkerState) (wid : String) (r : Direction) :
    (wid ∈ w.settled_windows → settle_window w wid r = w) ∧
    wid ∈ (settle_window w wid r).settled_windows ∧
    settle_window (settle_window w wid r) wid r = settle_window w wid r :=
  ⟨fun h => settle_window_of_mem r h,
   mem_settle_window w wid r,
   settle_window_of_mem r (mem_settle_window w wid r)⟩

/-- Witness for C3: a concrete worker state whose settled set already holds
the window is left untouched by `settle_window`. -/
theorem C3_settle_window_idempotent_witness :
    settle_window ⟨[], ["w1"]⟩ "w1" Direction.YES = ⟨[], ["w1"]⟩ :=
  (C3_settle_window_idempotent ⟨[], ["w1"]⟩ "w1" Direction.YES).1 (by simp)

/-- Claim C1: in every reachable bot state the bankroll equals the initial
bankroll plus the sum of realized profits over the trade history. -/
theorem C1_bankroll_invariant (p : Policy) (cfg : BotConfig) (s : LiveBotState)
    (h : Reach p cfg s) :
    s.bankroll = s.initial_bankroll + (s.trades.map SettledTrade.profit).sum := by
  induction h with
  | init => simp [initState]
  | eval tick hr ih =>
    obtain ⟨h1, h2, h3⟩ := tickEval_ledger p cfg _ tick
    rw [h1, h2, h3]
    exact ih
  | settle r hr ih => exact settle_trade_bankroll r ih

/-- Witness for C1: the invariant holds at the concrete state reached by one
accepted fixed-minute entry followed by a YES settlement. -/
theorem C1_bankroll_invariant_witness :
    (settle_trade (tickEval Policy.fixedMinute fixedMin5Cfg (initState fixedMin5Cfg)
        scenarioTick) Direction.YES).bankroll =
      (settle_trade (tickEval Policy.fixedMinute fixedMin5Cfg (initState fixedMin5Cfg)
          scenarioTick) Direction.YES).initial_bankroll +
        (((settle_trade (tickEval Policy.fixedMinute fixedMin5Cfg (initState fixedMin5Cfg)
            scenarioTick) Direction.YES).trades.map SettledTrade.profit)).sum :=
  C1_bankroll_invariant Policy.fixedMinute fixedMin5Cfg _
    (Reach.settle Direction.YES (Reach.eval scenarioTick Reach.init))

/-- Claim C2: all three entry checks skip when the bot has a pending trade or
has already traded the tick's window; consequently such a tick leaves the bot
state unchanged (no second Execute for a traded window, and a pending position
is never overwritten), while every Execute marks its window as traded. -/
theorem C2_no_reentry :
    (∀ (p : Policy) (cfg : BotConfig) (bot : LiveBotState) (tick : Tick),
        bot.pending_trade.isSome ∨ tick.window_id ∈ bot.traded_windows →
        checkEntry p cfg bot tick = none) ∧
    (∀ (p : Policy) (cfg : BotConfig) (bot : LiveBotState) (tick : Tick),
        tick.window_id ∈ bot.traded_windows → tickEval p cfg bot tick = bot) ∧
    (∀ (p : Policy) (cfg : BotConfig) (bot : LiveBotState) (tick : Tick),
        bot.pending_trade.isSome → tickEval p cfg bot tick = bot) ∧
    (∀ (cfg : BotConfig) (bot : LiveBotState) (tick : Tick) (info : TradeInfo),
        tick.window_id ∈ (execute_trade cfg bot tick info).traded_windows) :=
  ⟨fun p cfg bot tick h => checkEntry_skip p cfg bot tick h,
   fun p cfg bot tick h => tickEval_of_skip p cfg bot tick (Or.inr h),
   fun p cfg bot tick h => tickEval_of_skip p cfg bot tick (Or.inl h),
   fun cfg bot tick info => List.mem_insert_self tick.window_id bot.traded_windows⟩

/-- Witness for C2: a tick whose window is already in the traded set leaves a
concrete bot state unchanged. -/
theorem C2_no_reentry_witness :
    tickEval Policy.fixedMinute fixedMin5Cfg
      { initState fixedMin5Cfg with traded_windows := ["w"] } scenarioTick =
      { initState fixedMin5Cfg with traded_windows := ["w"] } :=
  C2_no_reentry.2.1 Policy.fixedMinute fixedMin5Cfg
    { initState fixedMin5Cfg with traded_windows := ["w"] } scenarioTick (by simp [scenarioTick])

/-- Claim C8: the fixed-minute policy accepts only inside the ±0.5-minute
window around `14 - target_minute` and only with edge
`true_probability - price/100` at least the minimum edge; the minute-5 bot
(true probability 0.804, min edge 0.03) on a tick at minutes-remaining 9.0
with price above strike and up-ask 60 produces Enter(up, 60, 0.204). -/
theorem C8_fixed_minute_policy :
    (∀ (cfg : BotConfig) (bot : LiveBotState) (tick : Tick) (info : TradeInfo),
        check_fixed_minute_entry cfg bot tick = some info →
        (14 - cfg.target_minute - 1/2 ≤ tick.mins_left ∧
         tick.mins_left ≤ 14 - cfg.target_minute + 1/2) ∧
        ∃ e, info.edge = some e ∧ e = cfg.true_probability - info.price / 100 ∧
          cfg.min_edge ≤ e) ∧
    check_fixed_minute_entry fixedMin5Cfg (initState fixedMin5Cfg) scenarioTick =
      some ⟨Direction.YES, 60, some (51/250)⟩ := by
  constructor
  · intro cfg bot tick info h
    obtain ⟨hwin, _, _, hedge, hmin, _, _⟩ := check_fixed_inv h
    exact ⟨hwin, cfg.true_probability - info.price / 100, hedge, rfl, hmin⟩
  · exact scenario_fixed_eval

/-- Witness for C8: the necessity conditions instantiated at the minute-5
scenario decision. -/
theorem C8_fixed_minute_policy_witness :
    (14 - fixedMin5Cfg.target_minute - 1/2 ≤ scenarioTick.mins_left ∧
     scenarioTick.mins_left ≤ 14 - fixedMin5Cfg.target_minute + 1/2) ∧
    ∃ e, (some (51/250) : Option ℚ) = some e ∧
      e = fixedMin5Cfg.true_probability - (60 : ℚ) / 100 ∧ fixedMin5Cfg.min_edge ≤ e :=
  C8_fixed_minute_policy.1 fixedMin5Cfg (initState fixedMin5Cfg) scenarioTick
    ⟨Direction.YES, 60, some (51/250)⟩ C8_fixed_minute_policy.2

/-- Claim C9: the sentiment policy (wait elapsed, at least 30 seconds left,
both asks nonzero) takes the up side first when its ask meets the threshold,
else the down side, else skips; an accepted price of 100 or more is rejected;
no decision carries an edge; threshold 70 with asks 72/30 yields
Enter(up, 72, no edge). -/
theorem C9_sentiment_policy (cfg : BotConfig) (bot : LiveBotState) (tick : Tick)
    (h1 : bot.pending_trade = none) (h2 : tick.window_id ∉ bot.traded_windows)
    (h3 : tick.mins_left ≤ 14 - cfg.min_wait_minutes) (h4 : 1/2 ≤ tick.mins_left)
    (h5 : tick.yes_ask ≠ 0) (h6 : tick.no_ask ≠ 0) :
    (cfg.odds_threshold ≤ tick.yes_ask → tick.yes_ask < 100 →
      check_sentiment_entry cfg bot tick = some ⟨Direction.YES, tick.yes_ask, none⟩) ∧
    (cfg.odds_threshold ≤ tick.yes_ask → 100 ≤ tick.yes_ask →
      check_sentiment_entry cfg bot tick = none) ∧
    (¬ cfg.odds_threshold ≤ tick.yes_ask → cfg.odds_threshold ≤ tick.no_ask →
      tick.no_ask < 100 →
      check_sentiment_entry cfg bot tick = some ⟨Direction.NO, tick.no_ask, none⟩) ∧
    (¬ cfg.odds_threshold ≤ tick.yes_ask → cfg.odds_threshold ≤ tick.no_ask →
      100 ≤ tick.no_ask → check_sentiment_entry cfg bot tick = none) ∧
    (¬ cfg.odds_threshold ≤ tick.yes_ask → ¬ cfg.odds_threshold ≤ tick.no_ask →
      check_sentiment_entry cfg bot tick = none) ∧
    (∀ info, check_sentiment_entry cfg bot tick = some info → info.edge = none) ∧
    check_sentiment_entry sentiment70Cfg (initState sentiment70Cfg) sentimentTick =
      some ⟨Direction.YES, 72, none⟩ := by
  have hbase : check_sentiment_entry cfg bot tick =
      (if cfg.odds_threshold ≤ tick.yes_ask then some (Direction.YES, tick.yes_ask)
       else if cfg.odds_threshold ≤ tick.no_ask then some (Direction.NO, tick.no_ask)
       else none).bind fun dp =>
        if 100 ≤ dp.2 then none else some ⟨dp.1, dp.2, none⟩ := by
    unfold check_sentiment_entry
    rw [if_neg (by simp [h1]), if_neg h2, if_neg (not_lt.mpr h3), if_neg (not_lt.mpr h4),
        if_neg (not_or.mpr ⟨h5, h6⟩)]
  refine ⟨?_, ?_, ?_, ?_, ?_, ?_, scenario_sentiment_eval⟩
  · intro ha hb
    rw [hbase, if_pos ha]
    simp only [Option.some_bind]
    rw [if_neg (not_le.mpr hb)]
  · intro ha hb
    rw [hbase, if_pos ha]
    simp only [Option.some_bind]
    rw [if_pos hb]
  · intro ha hb hc
    rw [hbase, if_neg ha, if_pos hb]
    simp only [Option.some_bind]
    rw [if_neg (not_le.mpr hc)]
  · intro ha hb hc
    rw [hbase, if_neg ha, if_pos hb]
    simp only [Option.some_bind]
    rw [if_pos hc]
  · intro ha hb
    rw [hbase, if_neg ha, if_neg hb]
    rfl
  · intro info hinfo
    exact (check_sentiment_inv hinfo).1

/-- Witness for C9: the threshold-70 scenario evaluated through the theorem. -/
theorem C9_sentiment_policy_witness :
    check_sentiment_entry sentiment70Cfg (initState sentiment70Cfg) sentimentTick =
      some ⟨Direction.YES, 72, none⟩ :=
  (C9_sentiment_policy sentiment70Cfg (initState sentiment70Cfg) sentimentTick rfl
      (by simp [initState]) (by norm_num [sentimentTick, sentiment70Cfg])
      (by norm_num [sentimentTick]) (by norm_num [sentimentTick])
      (by norm_num [sentimentTick])).2.2.2.2.2.2

/-- Claim C7: with edge-scaling enabled the executed bet size is
`base + clamp((edge - 0.10)/0.20, 0, 1) * (max - base)`; every decision the
dynamic-edge check produces under a positive minimum edge has such a nonzero
edge; the ramp is monotone, bounded by `[base, max]` when `base ≤ max`,
saturates at the base below 10% edge and at the max above 30% edge; without
edge-scaling the bet size is the fixed configured amount. -/
theorem C7_edge_scaled_bet_size :
    (∀ (cfg : BotConfig) (bot : LiveBotState) (tick : Tick) (info : TradeInfo) (e : ℚ),
        cfg.scale_with_edge = true → info.edge = some e → e ≠ 0 →
        (execute_trade cfg bot tick info).pending_trade.map Position.bet_size =
          some (cfg.base_bet_size + min 1 (max 0 ((e - 10/100) / (20/100))) *
            (cfg.max_bet_size - cfg.base_bet_size))) ∧
    (∀ (cfg : BotConfig) (bot : LiveBotState) (tick : Tick) (info : TradeInfo),
        0 < cfg.min_edge → check_dynamic_edge_entry cfg bot tick = some info →
        ∃ e, info.edge = some e ∧ 0 < e) ∧
    (∀ (cfg : BotConfig) (e1 e2 : ℚ), cfg.base_bet_size ≤ cfg.max_bet_size → e1 ≤ e2 →
        cfg.base_bet_size + min 1 (max 0 ((e1 - 10/100) / (20/100))) *
            (cfg.max_bet_size - cfg.base_bet_size) ≤
          cfg.base_bet_size + min 1 (max 0 ((e2 - 10/100) / (20/100))) *
            (cfg.max_bet_size - cfg.base_bet_size)) ∧
    (∀ (cfg : BotConfig) (e : ℚ), cfg.base_bet_size ≤ cfg.max_bet_size →
        cfg.base_bet_size ≤ cfg.base_bet_size + min 1 (max 0 ((e - 10/100) / (20/100))) *
            (cfg.max_bet_size - cfg.base_bet_size) ∧
        cfg.base_bet_size + min 1 (max 0 ((e - 10/100) / (20/100))) *
            (cfg.max_bet_size - cfg.base_bet_size) ≤ cfg.max_bet_size) ∧
    (∀ e : ℚ, e ≤ 10/100 → min 1 (max 0 ((e - 10/100) / (20/100))) = 0) ∧
    (∀ e : ℚ, 30/100 ≤ e → min 1 (max 0 ((e - 10/100) / (20/100))) = 1) ∧
    (∀ (cfg : BotConfig) (bot : LiveBotState) (tick : Tick) (info : TradeInfo),
        cfg.scale_with_edge = false →
        (execute_trade cfg bot tick info).pending_trade.map Position.bet_size =
          some cfg.bet_size) := by
  refine ⟨?_, ?_, ?_, ?_, ?_, ?_, ?_⟩
  · intro cfg bot tick info e hs he hz
    calc (execute_trade cfg bot tick info).pending_trade.map Position.bet_size
        = some (exec_bet_size cfg info) := rfl
      _ = _ := by rw [exec_bet_size_scaled cfg info e hs he hz]
  · intro cfg bot tick info hme h
    obtain ⟨_, _, _, e, hedge, hmin⟩ := check_dynamic_inv h
    exact ⟨e, hedge, lt_of_lt_of_le hme hmin⟩
  · intro cfg e1 e2 hbm h12
    have hs : min 1 (max 0 ((e1 - 10/100) / (20/100))) ≤
        min 1 (max 0 ((e2 - 10/100) / (20/100))) := by
      apply min_le_min (le_refl 1)
      apply max_le_max (le_refl 0)
      exact (div_le_div_iff_of_pos_right (by norm_num)).mpr (by linarith)
    have hC : 0 ≤ cfg.max_bet_size - cfg.base_bet_size := sub_nonneg.mpr hbm
    exact add_le_add_left (mul_le_mul_of_nonneg_right hs hC) _
  · intro cfg e hbm
    have s0 : 0 ≤ min 1 (max 0 ((e - 10/100) / (20/100))) :=
      le_min zero_le_one (le_max_left 0 _)
    have s1 : min 1 (max 0 ((e - 10/100) / (20/100))) ≤ 1 := min_le_left _ _
    have hC : 0 ≤ cfg.max_bet_size - cfg.base_bet_size := sub_nonneg.mpr hbm
    have h1C := mul_le_mul_of_nonneg_right s1 hC
    constructor
    · exact le_add_of_nonneg_right (mul_nonneg s0 hC)
    · linarith
  · intro e he
    have hx : (e - 10/100) / (20/100) ≤ 0 := by
      rw [div_le_iff₀ (by norm_num : (0:ℚ) < 20/100)]
      linarith
    rw [max_eq_left hx]
    norm_num
  · intro e he
    have hx : (1 : ℚ) ≤ (e - 10/100) / (20/100) := by
      rw [le_div_iff₀ (by norm_num : (0:ℚ) < 20/100)]
      linarith
    rw [max_eq_right (le_trans zero_le_one hx), min_eq_left hx]
  · intro cfg bot tick info hs
    calc (execute_trade cfg bot tick info).pending_trade.map Position.bet_size
        = some (exec_bet_size cfg info) := rfl
      _ = _ := by rw [exec_bet_size_fixed cfg info hs]

/-- The Series-2 bot `s2_dynamic_scaled_wait3` from `DYNAMIC_EDGE_BOTS`
(src/config/bot_configs.py): waits 3 minutes, scales the bet with edge
between base 10 and max 50 with minimum edge 0.05. -/
def scaledCfg : BotConfig :=
  { min_wait_minutes := 3
    min_edge := 5/100
    scale_with_edge := true
    base_bet_size := 10
    max_bet_size := 50
    starting_bankroll := 1000 }

/-- Witness for C7: a scaled Execute at edge 0.20 carries the ramp bet size. -/
theorem C7_edge_scaled_bet_size_witness :
    (execute_trade scaledCfg (initState scaledCfg) scenarioTick
        ⟨Direction.YES, 60, some (2/10)⟩).pending_trade.map Position.bet_size =
      some (scaledCfg.base_bet_size + min 1 (max 0 ((2/10 - 10/100) / (20/100))) *
        (scaledCfg.max_bet_size - scaledCfg.base_bet_size)) :=
  C7_edge_scaled_bet_size.1 scaledCfg (initState scaledCfg) scenarioTick
    ⟨Direction.YES, 60, some (2/10)⟩ (2/10) rfl rfl (by norm_num)

/-- Claim C10: every decision produced by any of the three entry checks (on a
tick whose asks are nonnegative, per the tick contract) has a price strictly
between 0 and 100, so the Execute contract count `int(bet/(price/100))` never
divides by zero and is nonnegative for nonnegative configured bet sizes. -/
theorem C10_decision_price_safety :
    (∀ (p : Policy) (cfg : BotConfig) (bot : LiveBotState) (tick : Tick) (info : TradeInfo),
        0 ≤ tick.yes_ask → 0 ≤ tick.no_ask →
        checkEntry p cfg bot tick = some info →
        0 < info.price ∧ info.price < 100) ∧
    (∀ (cfg : BotConfig) (bot : LiveBotState) (tick : Tick) (info : TradeInfo),
        0 < info.price → 0 ≤ cfg.bet_size → 0 ≤ cfg.base_bet_size → 0 ≤ cfg.max_bet_size →
        ∃ pos, (execute_trade cfg bot tick info).pending_trade = some pos ∧
          pos.contracts = truncToInt (exec_bet_size cfg info / (info.price / 100)) ∧
          0 ≤ pos.contracts) := by
  constructor
  · intro p cfg bot tick info hy hn h
    have hb : info.price ≠ 0 ∧ info.price < 100 ∧
        (info.price = tick.yes_ask ∨ info.price = tick.no_ask) := by
      cases p with
      | fixedMinute =>
        obtain ⟨_, hz, hc, _, _, _, hor⟩ := check_fixed_inv h
        exact ⟨hz, hc, hor⟩
      | dynamicEdge =>
        obtain ⟨hz, hc, hor, _⟩ := check_dynamic_inv h
        exact ⟨hz, hc, hor⟩
      | sentiment =>
        obtain ⟨_, hz, hc, hor⟩ := check_sentiment_inv h
        exact ⟨hz, hc, hor⟩
    obtain ⟨hz, hc, hor⟩ := hb
    have hge : 0 ≤ info.price := by
      rcases hor with hq | hq
      · rw [hq]; exact hy
      · rw [hq]; exact hn
    exact ⟨lt_of_le_of_ne hge (Ne.symm hz), hc⟩
  · intro cfg bot tick info hp h1 h2 h3
    refine ⟨_, rfl, rfl, ?_⟩
    exact truncToInt_nonneg (div_nonneg (exec_bet_size_nonneg cfg info h1 h2 h3)
      (div_nonneg (le_of_lt hp) (by norm_num)))

/-- Witness for C10: the fixed-minute scenario decision has a price strictly
inside (0, 100). -/
theorem C10_decision_price_safety_witness :
    (0 : ℚ) < (TradeInfo.mk Direction.YES 60 (some (51/250))).price ∧
      (TradeInfo.mk Direction.YES 60 (some (51/250))).price < 100 :=
  C10_decision_price_safety.1 Policy.fixedMinute fixedMin5Cfg (initState fixedMin5Cfg)
    scenarioTick ⟨Direction.YES, 60, some (51/250)⟩ (by norm_num [scenarioTick])
    (by norm_num [scenarioTick]) scenario_fixed_eval

lemma trackTick_stable {s : TrackerState} {t : Tick} {p : ℚ}
    (hcur : s.current_window = some t.window_id)
    (hlook : lookupStrike s.window_strikes t.window_id = some p) :
    trackTick s t = (s, { t with strike_price := p }) := by
  have hrec : recordWindow s t = s := by
    unfold recordWindow
    rw [if_neg (by rw [hcur]; exact not_not_intro rfl)]
  simp only [trackTick, hrec, hlook]

lemma trackTick_new {s : TrackerState} {t : Tick}
    (h : s.current_window ≠ some t.window_id) :
    trackTick s t =
      ({ current_window := some t.window_id
         window_strikes := (t.window_id, t.btc_price) :: s.window_strikes },
       { t with strike_price := t.btc_price }) := by
  have hrec : recordWindow s t =
      { current_window := some t.window_id
        window_strikes := (t.window_id, t.btc_price) :: s.window_strikes } := by
    unfold recordWindow
    rw [if_pos h]
  simp [trackTick, hrec, lookupStrike]

lemma runTicks_same_window {wid : String} {p : ℚ} (ts : List Tick) (s : TrackerState)
    (hcur : s.current_window = some wid)
    (hlook : lookupStrike s.window_strikes wid = some p)
    (hsame : ∀ u ∈ ts, u.window_id = wid) :
    (runTicks s ts).2.map Tick.strike_price = ts.map (fun _ => p) ∧
    (runTicks s ts).1.current_window = some wid ∧
    lookupStrike (runTicks s ts).1.window_strikes wid = some p := by
  induction ts generalizing s with
  | nil => exact ⟨rfl, hcur, hlook⟩
  | cons u us ih =>
    have hu : u.window_id = wid := hsame u (List.mem_cons_self u us)
    have hstep : trackTick s u = (s, { u with strike_price := p }) :=
      trackTick_stable (by rw [hu]; exact hcur) (by rw [hu]; exact hlook)
    obtain ⟨ih1, ih2, ih3⟩ :=
      ih s hcur hlook (fun v hv => hsame v (List.mem_cons_of_mem u hv))
    refine ⟨?_, ?_, ?_⟩
    · simp only [runTicks, hstep, List.map_cons, ih1]
    · simp only [runTicks, hstep, ih2]
    · simp only [runTicks, hstep, ih3]

/-- Claim C5 (amended): as long as a window's ticks arrive contiguously — the
tracker's current window stays that window between its first and last tick —
the first tick of the window records its BTC price as the strike, and every
tick of that contiguous run is stamped with exactly that stored strike, which
is still recorded unchanged afterwards. -/
theorem C5_strike_stamping (s0 : TrackerState) (t : Tick) (ts : List Tick)
    (hnew : s0.current_window ≠ some t.window_id)
    (hsame : ∀ u ∈ ts, u.window_id = t.window_id) :
    (runTicks s0 (t :: ts)).2.map Tick.strike_price =
      (t :: ts).map (fun _ => t.btc_price) ∧
    lookupStrike (runTicks s0 (t :: ts)).1.window_strikes t.window_id =
      some t.btc_price := by
  have hstep := trackTick_new hnew
  have hlook1 : lookupStrike
      ((t.window_id, t.btc_price) :: s0.window_strikes) t.window_id =
      some t.btc_price := by
    simp [lookupStrike]
  obtain ⟨h1, h2, h3⟩ := runTicks_same_window ts
    ({ current_window := some t.window_id
       window_strikes := (t.window_id, t.btc_price) :: s0.window_strikes }) rfl hlook1 hsame
  refine ⟨?_, ?_⟩
  · simp only [runTicks, hstep, List.map_cons, h1]
  · simp only [runTicks, hstep, h3]

/-- Witness for C5 (amended): two contiguous ticks of window "A" are both
stamped with the first tick's BTC price. -/
theorem C5_strike_stamping_witness :
    (runTicks initTracker (Tick.mk "A" 100 0 13 50 50 :: [Tick.mk "A" 107 0 12 50 50])).2.map
        Tick.strike_price =
      (Tick.mk "A" 100 0 13 50 50 :: [Tick.mk "A" 107 0 12 50 50]).map
        (fun _ => (Tick.mk "A" 100 0 13 50 50).btc_price) ∧
    lookupStrike (runTicks initTracker
        (Tick.mk "A" 100 0 13 50 50 :: [Tick.mk "A" 107 0 12 50 50])).1.window_strikes
        (Tick.mk "A" 100 0 13 50 50).window_id =
      some (Tick.mk "A" 100 0 13 50 50).btc_price :=
  C5_strike_stamping initTracker (Tick.mk "A" 100 0 13 50 50) [Tick.mk "A" 107 0 12 50 50]
    (by simp [initTracker])
    (fun u hu => by rw [List.mem_singleton.mp hu])

/-- Counterexample to C5 as stated: with the tick sequence
A(price 100), B(price 200), A(price 107) the window-A strike is recorded as
100 at the first tick, yet the third tick — again window A, arriving after a
different window became current — is re-recorded and stamped with 107, not
with the stored 100: the recorded strike does change for a window id that
reappears. -/
theorem C5_counterexample :
    (runTicks initTracker
        [Tick.mk "A" 100 0 13 50 50, Tick.mk "B" 200 0 13 50 50,
         Tick.mk "A" 107 0 12 50 50]).2.map Tick.strike_price = [100, 200, 107] ∧
    (107 : ℚ) ≠ 100 := by
  constructor
  · simp [runTicks, trackTick, recordWindow, lookupStrike, initTracker]
  · norm_num

end Polymarket
